import Mathlib

/-!
Verification of the quotation subsystem of a construction-procurement
backend.  The embedding models the quotation usecase: the pure aggregator
`buildQuotationResponse` (with its helpers `getValidTime` and `roundFloat`)
and the three orchestrator operations `CreateOrGetQuotation`,
`ApproveQuotation` and `ExportQuotation`, which run against a quotation
repository modelled as an explicit state together with a trace of the
repository calls each operation performs.

Numeric fields use `ℚ`; nullable numeric columns are modelled as a pair of
a validity flag and a payload, mirroring the nullable wrapper type used by
the source (`Valid : Bool`, `Float64 : ℚ`), so that an absent value may
carry an arbitrary payload that the code must ignore.
-/

namespace Boonkosang

/-- Nullable numeric column: `Valid` flag plus payload, as in the source's
nullable float wrapper.  When `Valid` is `false` the payload is
meaningless and must not be read. -/
structure NullFloat64 where
  Valid : Bool
  Float64 : ℚ
deriving DecidableEq, Repr

/-- Nullable timestamp column: `Valid` flag plus payload.  Time is modelled
as an integer instant; the zero value of the time type is `0`. -/
structure NullTime where
  Valid : Bool
  Time : ℤ
deriving DecidableEq, Repr

/-- Modelled from the spec: the job row read for a quotation (the model
type itself is not under `src/`; its fields are exactly those the
aggregator reads).  `TotalLaborCost` is the always-present labor total;
`EstimatedPrice`, `Total`, `SellingPrice` and `TotalEstPrice` are
nullable. -/
structure QuotationJob where
  JobName : String
  Unit : String
  Quantity : ℚ
  LaborCost : ℚ
  TotalLaborCost : ℚ
  EstimatedPrice : NullFloat64
  Total : NullFloat64
  SellingPrice : NullFloat64
  TotalEstPrice : NullFloat64
deriving DecidableEq, Repr

/-- Modelled from the spec: a general-cost row with a name and an optional
estimated cost. -/
structure QuotationGeneralCost where
  TypeName : String
  EstimatedCost : NullFloat64
deriving DecidableEq, Repr

/-- Modelled from the spec: the quotation record; id, status string,
optional valid-until date and optional tax percentage. -/
structure Quotation where
  QuotationID : String
  Status : String
  ValidDate : NullTime
  TaxPercentage : NullFloat64
deriving DecidableEq, Repr

/-- Modelled from the spec: one output row per job.  `SellingPrice` is
included in the row only when present, modelled as an `Option`. -/
structure QuotationJobDetail where
  Name : String
  Unit : String
  Quantity : ℚ
  LaborCost : ℚ
  MaterialCost : ℚ
  TotalCost : ℚ
  SellingPrice : Option ℚ
deriving DecidableEq, Repr

/-- Modelled from the spec: one output row per included general cost. -/
structure GeneralCostDetail where
  TypeName : String
  EstimatedCost : ℚ
deriving DecidableEq, Repr

/-- Modelled from the spec: the six derived summary fields. -/
structure QuotationSummary where
  TotalLaborCost : ℚ
  TotalMaterialCost : ℚ
  TotalGeneralCost : ℚ
  SubTotal : ℚ
  Tax : ℚ
  Total : ℚ
deriving DecidableEq, Repr

/-- Modelled from the spec: the aggregator's output value object.  The two
lists are `Option (List _)` to distinguish an absent (nil) slice from a
present empty one; the aggregator initialises both to `some []`. -/
structure QuotationResponse where
  QuotationID : String
  Status : String
  ValidDate : ℤ
  Jobs : Option (List QuotationJobDetail)
  Costs : Option (List GeneralCostDetail)
  Summary : QuotationSummary
deriving DecidableEq, Repr

/-- `getValidTime` from the source: the payload when valid, otherwise the
zero time value. -/
def getValidTime (nullTime : NullTime) : ℤ :=
  if nullTime.Valid then nullTime.Time else 0

/-- Rounding to the nearest integer, halves away from zero, as the
standard library rounding function used by the source behaves. -/
def mathRound (x : ℚ) : ℤ :=
  if x < 0 then -⌊-x + 1/2⌋ else ⌊x + 1/2⌋

/-- `roundFloat` from the source: `round(val * 10^precision) / 10^precision`. -/
def roundFloat (val : ℚ) (precision : ℕ) : ℚ :=
  (mathRound (val * 10 ^ precision) : ℚ) / 10 ^ precision

/-- The per-job output row built inside the aggregator's job loop:
material cost falls back to `0.0` when the estimated price is absent, the
total cost falls back to the job's (always present) labor total, and the
selling price is set only when present. -/
def jobDetailOf (job : QuotationJob) : QuotationJobDetail :=
  { Name := job.JobName
    Unit := job.Unit
    Quantity := job.Quantity
    LaborCost := job.LaborCost
    MaterialCost := if job.EstimatedPrice.Valid then job.EstimatedPrice.Float64 else 0
    TotalCost := if job.Total.Valid then job.Total.Float64 else job.TotalLaborCost
    SellingPrice := if job.SellingPrice.Valid then some job.SellingPrice.Float64 else none }

/-- The job-loop accumulator `totalLaborCost`: every iteration adds the
job's labor total. -/
def totalLaborCostOf (jobs : List QuotationJob) : ℚ :=
  (jobs.map (fun job => job.TotalLaborCost)).sum

/-- The job-loop accumulator `totalMaterialCost`: a job contributes its
total estimated price only when that field is present. -/
def totalMaterialCostOf (jobs : List QuotationJob) : ℚ :=
  (jobs.map (fun job =>
    if job.TotalEstPrice.Valid then job.TotalEstPrice.Float64 else 0)).sum

/-- The general-cost loop's output list: only costs whose estimated cost
is present are appended, in input order. -/
def costDetailsOf (costs : List QuotationGeneralCost) : List GeneralCostDetail :=
  (costs.filter (fun cost => cost.EstimatedCost.Valid)).map
    (fun cost => { TypeName := cost.TypeName, EstimatedCost := cost.EstimatedCost.Float64 })

/-- The general-cost loop's accumulator `totalGeneralCost`: a cost
contributes only when its estimated cost is present. -/
def totalGeneralCostOf (costs : List QuotationGeneralCost) : ℚ :=
  (costs.map (fun cost =>
    if cost.EstimatedCost.Valid then cost.EstimatedCost.Float64 else 0)).sum

/-- The explicit tax-percentage branch of the aggregator: the quotation's
tax percentage when present, `0.0` otherwise. -/
def taxPercentageOf (quotation : Quotation) : ℚ :=
  if quotation.TaxPercentage.Valid then quotation.TaxPercentage.Float64 else 0

/-- `buildQuotationResponse` from the source: one output row per job, the
filtered general-cost rows, and the summary
`subtotal = totalLabor + totalMaterial + totalGeneral`,
`tax = subtotal * (taxPercentage / 100)`, `total = subtotal + tax`, every
summary field rounded to two decimal places at the output boundary. -/
def buildQuotationResponse (quotation : Quotation) (jobs : List QuotationJob)
    (costs : List QuotationGeneralCost) : QuotationResponse :=
  let totalLaborCost := totalLaborCostOf jobs
  let totalMaterialCost := totalMaterialCostOf jobs
  let totalGeneralCost := totalGeneralCostOf costs
  let subtotal := totalLaborCost + totalMaterialCost + totalGeneralCost
  let tax := subtotal * (taxPercentageOf quotation / 100)
  let total := subtotal + tax
  { QuotationID := quotation.QuotationID
    Status := quotation.Status
    ValidDate := getValidTime quotation.ValidDate
    Jobs := some (jobs.map jobDetailOf)
    Costs := some (costDetailsOf costs)
    Summary :=
      { TotalLaborCost := roundFloat totalLaborCost 2
        TotalMaterialCost := roundFloat totalMaterialCost 2
        TotalGeneralCost := roundFloat totalGeneralCost 2
        SubTotal := roundFloat subtotal 2
        Tax := roundFloat tax 2
        Total := roundFloat total 2 } }

/-- Errors: a fresh error message (`errors.New`) or an error wrapped with
operation context (`%w`-style wrapping). -/
inductive Err where
  | msg (s : String)
  | wrap (ctx : String) (e : Err)
deriving DecidableEq, Repr

/-- Modelled from the spec: the opaque export bundle returned by the
repository's `GetExportData`. -/
structure QuotationExportData where
  payload : String
deriving DecidableEq, Repr

/-- The repository calls an orchestrator operation can make, recorded in
order in a trace. -/
inductive RepoCall where
  | checkBOQStatus
  | getByProjectID
  | create
  | getQuotationJobs
  | getQuotationGeneralCosts
  | validateApproval
  | approveQuotation
  | getQuotationStatus
  | getExportData
deriving DecidableEq, Repr

/-- Modelled from the spec: the quotation repository for one project, as a
state.  Each field is the result the corresponding repository call would
return (`Except` for the Go value-or-error pair; `.ok none` models the
nil-with-no-error "not found" lookup result).  `Create` and
`ApproveQuotation` mutate this state on success. -/
structure RepoState where
  boqStatus : Except Err String
  existing : Except Err (Option Quotation)
  createResult : Except Err Quotation
  jobs : Except Err (List QuotationJob)
  costs : Except Err (List QuotationGeneralCost)
  validateResult : Except Err Unit
  approveResult : Except Err Unit
  quotationStatus : Except Err String
  exportData : Except Err QuotationExportData

/-- Effect of a successful repository `Create`: the project now has the
created quotation, so the lookup returns it. -/
def afterCreate (s : RepoState) (q : Quotation) : RepoState :=
  { s with existing := .ok (some q) }

/-- Effect of a successful repository `ApproveQuotation`: the persisted
status transition to `"approved"`. -/
def afterApprove (s : RepoState) : RepoState :=
  { s with
    quotationStatus := .ok "approved"
    existing :=
      match s.existing with
      | .ok (some q) => .ok (some { q with Status := "approved" })
      | other => other }

/-- The tail of `CreateOrGetQuotation` (after the quotation is in hand):
fetch jobs, fetch general costs, build the response.  Errors propagate
unchanged; the already-updated state is kept. -/
def getJobsCostsAndBuild (q : Quotation) (s : RepoState) (calls : List RepoCall) :
    Except Err QuotationResponse × RepoState × List RepoCall :=
  match s.jobs with
  | .error e => (.error e, s, calls ++ [.getQuotationJobs])
  | .ok jobs =>
    match s.costs with
    | .error e => (.error e, s, calls ++ [.getQuotationJobs, .getQuotationGeneralCosts])
    | .ok costs =>
      (.ok (buildQuotationResponse q jobs costs), s,
        calls ++ [.getQuotationJobs, .getQuotationGeneralCosts])

/-- `CreateOrGetQuotation` from the source: check the BOQ status (must be
exactly `"approved"`), look up the existing quotation, create one only
when the lookup returned nil with no error, then fetch jobs and costs and
build the response. -/
def CreateOrGetQuotation (s : RepoState) :
    Except Err QuotationResponse × RepoState × List RepoCall :=
  match s.boqStatus with
  | .error e => (.error e, s, [.checkBOQStatus])
  | .ok boqStatus =>
    if boqStatus ≠ "approved" then
      (.error (.msg "BOQ must be approved before creating quotation"), s, [.checkBOQStatus])
    else
      match s.existing with
      | .error e => (.error e, s, [.checkBOQStatus, .getByProjectID])
      | .ok none =>
        match s.createResult with
        | .error e => (.error e, s, [.checkBOQStatus, .getByProjectID, .create])
        | .ok q =>
          getJobsCostsAndBuild q (afterCreate s q) [.checkBOQStatus, .getByProjectID, .create]
      | .ok (some q) =>
        getJobsCostsAndBuild q s [.checkBOQStatus, .getByProjectID]

/-- Outcome of `ApproveQuotation`: a returned error, a unit success, or
the nil-pointer dereference crash the source hits when it passes a nil
quotation into the aggregator. -/
inductive ApproveOutcome where
  | ok
  | err (e : Err)
  | nilDeref
deriving DecidableEq, Repr

/-- `ApproveQuotation` from the source: delegate validation to the
repository and propagate its failure verbatim; on success persist the
approval; then re-fetch quotation, jobs and costs (wrapping fetch failures
with context) and re-aggregate, discarding the result and returning unit.
The rebuild call dereferences the re-fetched quotation pointer
unconditionally, so a nil-with-no-error lookup result crashes
(`.nilDeref`) rather than returning. -/
def ApproveQuotation (s : RepoState) : ApproveOutcome × RepoState × List RepoCall :=
  match s.validateResult with
  | .error e => (.err e, s, [.validateApproval])
  | .ok _ =>
    match s.approveResult with
    | .error e => (.err e, s, [.validateApproval, .approveQuotation])
    | .ok _ =>
      match (afterApprove s).existing with
      | .error e =>
        (.err (.wrap "failed to get updated quotation" e), afterApprove s,
          [.validateApproval, .approveQuotation, .getByProjectID])
      | .ok quotation =>
        match (afterApprove s).jobs with
        | .error e =>
          (.err (.wrap "failed to get quotation jobs" e), afterApprove s,
            [.validateApproval, .approveQuotation, .getByProjectID, .getQuotationJobs])
        | .ok jobs =>
          match (afterApprove s).costs with
          | .error e =>
            (.err (.wrap "failed to get quotation costs" e), afterApprove s,
              [.validateApproval, .approveQuotation, .getByProjectID, .getQuotationJobs,
                .getQuotationGeneralCosts])
          | .ok costs =>
            match quotation with
            | none =>
              (.nilDeref, afterApprove s,
                [.validateApproval, .approveQuotation, .getByProjectID, .getQuotationJobs,
                  .getQuotationGeneralCosts])
            | some q =>
              let _ := buildQuotationResponse q jobs costs
              (.ok, afterApprove s,
                [.validateApproval, .approveQuotation, .getByProjectID, .getQuotationJobs,
                  .getQuotationGeneralCosts])

/-- `ExportQuotation` from the source: require BOQ status `"approved"`,
then quotation status `"approved"`, then return the export data.  No
state change on any path. -/
def ExportQuotation (s : RepoState) :
    Except Err QuotationExportData × RepoState × List RepoCall :=
  match s.boqStatus with
  | .error e => (.error e, s, [.checkBOQStatus])
  | .ok boqStatus =>
    if boqStatus ≠ "approved" then
      (.error (.msg "BOQ must be approved before exporting quotation"), s, [.checkBOQStatus])
    else
      match s.quotationStatus with
      | .error e => (.error e, s, [.checkBOQStatus, .getQuotationStatus])
      | .ok quotationStatus =>
        if quotationStatus ≠ "approved" then
          (.error (.msg "only approved quotations can be exported"), s,
            [.checkBOQStatus, .getQuotationStatus])
        else
          match s.exportData with
          | .error e => (.error e, s, [.checkBOQStatus, .getQuotationStatus, .getExportData])
          | .ok exportData =>
            (.ok exportData, s, [.checkBOQStatus, .getQuotationStatus, .getExportData])

/-! ### Helper lemmas -/

/-- Summing an if-then-else contribution equals summing over the filtered
list: absent entries contribute nothing. -/
theorem sum_ite_eq_sum_filter {α : Type} (p : α → Bool) (f : α → ℚ) (l : List α) :
    (l.map (fun a => if p a then f a else 0)).sum = ((l.filter p).map f).sum := by
  induction l with
  | nil => rfl
  | cons a t ih =>
    by_cases h : p a
    · simp [List.filter_cons, h, ih]
    · simp [List.filter_cons, h, ih]

/-- A mapped list is pointwise related to the original list. -/
theorem forall2_map {α β : Type} (f : α → β) (P : β → α → Prop) (l : List α)
    (h : ∀ a, P (f a) a) : List.Forall₂ P (l.map f) l := by
  induction l with
  | nil => exact List.Forall₂.nil
  | cons a t ih => exact List.Forall₂.cons (h a) ih

/-- The away-from-zero rounding is within a half of its argument. -/
theorem mathRound_close (y : ℚ) : |(mathRound y : ℚ) - y| ≤ 1/2 := by
  unfold mathRound
  rcases lt_or_le y 0 with hy | hy
  · rw [if_pos hy, abs_le]
    have h1 : (⌊-y + 1/2⌋ : ℚ) ≤ -y + 1/2 := Int.floor_le _
    have h2 : -y + 1/2 - 1 < (⌊-y + 1/2⌋ : ℚ) := Int.sub_one_lt_floor _
    constructor <;> push_cast <;> linarith
  · rw [if_neg (not_lt.mpr hy), abs_le]
    have h1 : (⌊y + 1/2⌋ : ℚ) ≤ y + 1/2 := Int.floor_le _
    have h2 : y + 1/2 - 1 < (⌊y + 1/2⌋ : ℚ) := Int.sub_one_lt_floor _
    constructor <;> linarith

/-- Two-decimal rounding differs from its argument by at most `1/200`. -/
theorem roundFloat_two_close (x : ℚ) : |roundFloat x 2 - x| ≤ 1/200 := by
  have h := mathRound_close (x * 10 ^ 2)
  unfold roundFloat
  have hx : (mathRound (x * 10 ^ 2) : ℚ) / 10 ^ 2 - x
      = ((mathRound (x * 10 ^ 2) : ℚ) - x * 10 ^ 2) / 10 ^ 2 := by ring
  rw [hx, abs_div, abs_of_nonneg (by positivity : (0:ℚ) ≤ 10 ^ 2)]
  rw [div_le_div_iff₀ (by positivity) (by norm_num)]
  norm_num
  linarith

/-- Two-decimal rounding lands on an integer multiple of `1/100`. -/
theorem roundFloat_two_grid (x : ℚ) : ∃ n : ℤ, roundFloat x 2 = n / 100 := by
  refine ⟨mathRound (x * 10 ^ 2), ?_⟩
  unfold roundFloat
  norm_num

/-- Rounding fixes zero. -/
theorem roundFloat_zero (precision : ℕ) : roundFloat 0 precision = 0 := by
  unfold roundFloat mathRound
  norm_num

/-! ### Claims about the aggregator -/

/-- C1: every output row's material cost is the job's estimated price when
present and `0.0` otherwise, its total cost is the job's precomputed total
when present and its (always present) labor total otherwise, and its
selling price is included exactly when present; the summary's
`totalLaborCost` is the (boundary-rounded) sum of the jobs' labor
totals. -/
theorem buildQuotationResponse_rows_and_laborTotal (quotation : Quotation)
    (jobs : List QuotationJob) (costs : List QuotationGeneralCost) :
    ∃ rows, (buildQuotationResponse quotation jobs costs).Jobs = some rows ∧
      List.Forall₂ (fun (row : QuotationJobDetail) (job : QuotationJob) =>
        row.MaterialCost = (if job.EstimatedPrice.Valid then job.EstimatedPrice.Float64 else 0) ∧
        row.TotalCost = (if job.Total.Valid then job.Total.Float64 else job.TotalLaborCost) ∧
        row.SellingPrice =
          (if job.SellingPrice.Valid then some job.SellingPrice.Float64 else none)) rows jobs ∧
      (buildQuotationResponse quotation jobs costs).Summary.TotalLaborCost
        = roundFloat ((jobs.map (fun job => job.TotalLaborCost)).sum) 2 := by
  refine ⟨jobs.map jobDetailOf, rfl, ?_, rfl⟩
  exact forall2_map jobDetailOf _ jobs (fun job => ⟨rfl, rfl, rfl⟩)

/-- C2: jobs whose total estimated price is absent contribute nothing to
`totalMaterialCost` (absence is not zero), and general costs with an
absent estimated cost never appear in the output list and contribute
nothing to `totalGeneralCost`. -/
theorem buildQuotationResponse_absent_excluded (quotation : Quotation)
    (jobs : List QuotationJob) (costs : List QuotationGeneralCost) :
    (buildQuotationResponse quotation jobs costs).Summary.TotalMaterialCost
      = roundFloat (((jobs.filter (fun job => job.TotalEstPrice.Valid)).map
          (fun job => job.TotalEstPrice.Float64)).sum) 2 ∧
    (buildQuotationResponse quotation jobs costs).Costs
      = some ((costs.filter (fun cost => cost.EstimatedCost.Valid)).map
          (fun cost => { TypeName := cost.TypeName,
                         EstimatedCost := cost.EstimatedCost.Float64 })) ∧
    (buildQuotationResponse quotation jobs costs).Summary.TotalGeneralCost
      = roundFloat (((costs.filter (fun cost => cost.EstimatedCost.Valid)).map
          (fun cost => cost.EstimatedCost.Float64)).sum) 2 := by
  refine ⟨?_, rfl, ?_⟩
  · show roundFloat (totalMaterialCostOf jobs) 2 = _
    rw [totalMaterialCostOf, sum_ite_eq_sum_filter]
  · show roundFloat (totalGeneralCostOf costs) 2 = _
    rw [totalGeneralCostOf, sum_ite_eq_sum_filter]

/-- C3: the summary is built from `subtotal = labor + material + general`,
`tax = subtotal * (taxPercentage / 100)` with the tax percentage taken
from the quotation when present and `0` via an explicit branch otherwise,
and `total = subtotal + tax`; when the tax percentage is absent the
computed tax is exactly `0` and the total equals the subtotal. -/
theorem buildQuotationResponse_tax (quotation : Quotation) (jobs : List QuotationJob)
    (costs : List QuotationGeneralCost) :
    taxPercentageOf quotation
      = (if quotation.TaxPercentage.Valid then quotation.TaxPercentage.Float64 else 0) ∧
    (buildQuotationResponse quotation jobs costs).Summary.SubTotal
      = roundFloat (totalLaborCostOf jobs + totalMaterialCostOf jobs
          + totalGeneralCostOf costs) 2 ∧
    (buildQuotationResponse quotation jobs costs).Summary.Tax
      = roundFloat ((totalLaborCostOf jobs + totalMaterialCostOf jobs
          + totalGeneralCostOf costs) * (taxPercentageOf quotation / 100)) 2 ∧
    (buildQuotationResponse quotation jobs costs).Summary.Total
      = roundFloat ((totalLaborCostOf jobs + totalMaterialCostOf jobs
          + totalGeneralCostOf costs)
          + (totalLaborCostOf jobs + totalMaterialCostOf jobs + totalGeneralCostOf costs)
            * (taxPercentageOf quotation / 100)) 2 ∧
    (quotation.TaxPercentage.Valid = false →
      (totalLaborCostOf jobs + totalMaterialCostOf jobs + totalGeneralCostOf costs)
        * (taxPercentageOf quotation / 100) = 0 ∧
      (buildQuotationResponse quotation jobs costs).Summary.Tax = 0 ∧
      (buildQuotationResponse quotation jobs costs).Summary.Total
        = (buildQuotationResponse quotation jobs costs).Summary.SubTotal) := by
  refine ⟨rfl, rfl, rfl, rfl, fun h => ?_⟩
  have htax : taxPercentageOf quotation = 0 := by simp [taxPercentageOf, h]
  refine ⟨by rw [htax]; ring, ?_, ?_⟩
  · have hT : (buildQuotationResponse quotation jobs costs).Summary.Tax
        = roundFloat ((totalLaborCostOf jobs + totalMaterialCostOf jobs
            + totalGeneralCostOf costs) * (taxPercentageOf quotation / 100)) 2 := rfl
    rw [hT, htax]
    norm_num [roundFloat_zero]
  · have hT : (buildQuotationResponse quotation jobs costs).Summary.Total
        = roundFloat ((totalLaborCostOf jobs + totalMaterialCostOf jobs
            + totalGeneralCostOf costs)
            + (totalLaborCostOf jobs + totalMaterialCostOf jobs + totalGeneralCostOf costs)
              * (taxPercentageOf quotation / 100)) 2 := rfl
    rw [hT, htax]
    norm_num
    rfl

/-- C4: every summary field is the two-decimal away-from-zero rounding
`round(x * 100) / 100` of the corresponding full-precision accumulated
value; two-decimal rounding always lands on an integer multiple of
`1/100` within `1/200` of its argument. -/
theorem buildQuotationResponse_rounding (quotation : Quotation) (jobs : List QuotationJob)
    (costs : List QuotationGeneralCost) :
    (buildQuotationResponse quotation jobs costs).Summary =
      { TotalLaborCost := roundFloat (totalLaborCostOf jobs) 2
        TotalMaterialCost := roundFloat (totalMaterialCostOf jobs) 2
        TotalGeneralCost := roundFloat (totalGeneralCostOf costs) 2
        SubTotal := roundFloat (totalLaborCostOf jobs + totalMaterialCostOf jobs
          + totalGeneralCostOf costs) 2
        Tax := roundFloat ((totalLaborCostOf jobs + totalMaterialCostOf jobs
          + totalGeneralCostOf costs) * (taxPercentageOf quotation / 100)) 2
        Total := roundFloat ((totalLaborCostOf jobs + totalMaterialCostOf jobs
          + totalGeneralCostOf costs)
          + (totalLaborCostOf jobs + totalMaterialCostOf jobs + totalGeneralCostOf costs)
            * (taxPercentageOf quotation / 100)) 2 } ∧
    (∀ x : ℚ, roundFloat x 2 = (mathRound (x * 100) : ℚ) / 100) ∧
    (∀ x : ℚ, (∃ n : ℤ, roundFloat x 2 = n / 100) ∧ |roundFloat x 2 - x| ≤ 1/200) := by
  refine ⟨rfl, fun x => by unfold roundFloat; norm_num, fun x => ⟨roundFloat_two_grid x, roundFloat_two_close x⟩⟩

/-! ### Concrete sample inputs -/

/-- Sample job: labor 100, material 50 present, total 150 present. -/
def exampleJob1 : QuotationJob :=
  { JobName := "job-1", Unit := "m2", Quantity := 1, LaborCost := 100, TotalLaborCost := 100
    EstimatedPrice := ⟨true, 50⟩, Total := ⟨true, 150⟩, SellingPrice := ⟨false, 0⟩
    TotalEstPrice := ⟨true, 50⟩ }

/-- Sample job: labor 200, material absent, total absent. -/
def exampleJob2 : QuotationJob :=
  { JobName := "job-2", Unit := "m", Quantity := 2, LaborCost := 200, TotalLaborCost := 200
    EstimatedPrice := ⟨false, 0⟩, Total := ⟨false, 0⟩, SellingPrice := ⟨false, 0⟩
    TotalEstPrice := ⟨false, 0⟩ }

/-- Sample general cost with estimated cost 30. -/
def exampleCost1 : QuotationGeneralCost := { TypeName := "overhead", EstimatedCost := ⟨true, 30⟩ }

/-- Sample general cost with absent estimated cost. -/
def exampleCost2 : QuotationGeneralCost := { TypeName := "misc", EstimatedCost := ⟨false, 0⟩ }

/-- Sample quotation with tax percentage 7 and absent valid date. -/
def exampleQuotation : Quotation :=
  { QuotationID := "q-1", Status := "draft", ValidDate := ⟨false, 0⟩, TaxPercentage := ⟨true, 7⟩ }

/-- Sample quotation with absent tax percentage and absent valid date. -/
def exampleQuotationNoTax : Quotation :=
  { QuotationID := "q-2", Status := "draft", ValidDate := ⟨false, 0⟩, TaxPercentage := ⟨false, 0⟩ }

/-- C3 witness: with the tax percentage absent, the tax is 0 and the total
equals the subtotal on a concrete input. -/
theorem buildQuotationResponse_tax_witness :
    (buildQuotationResponse exampleQuotationNoTax [exampleJob1, exampleJob2]
      [exampleCost1, exampleCost2]).Summary.Tax = 0 ∧
    (buildQuotationResponse exampleQuotationNoTax [exampleJob1, exampleJob2]
      [exampleCost1, exampleCost2]).Summary.Total
      = (buildQuotationResponse exampleQuotationNoTax [exampleJob1, exampleJob2]
          [exampleCost1, exampleCost2]).Summary.SubTotal := by
  obtain ⟨-, -, -, -, habs⟩ :=
    buildQuotationResponse_tax exampleQuotationNoTax [exampleJob1, exampleJob2]
      [exampleCost1, exampleCost2]
  obtain ⟨-, h1, h2⟩ := habs rfl
  exact ⟨h1, h2⟩

/-- C9: the end-to-end example — jobs (labor 100, material 50, total 150)
and (labor 200, material absent, total absent), general costs 30 and
absent, tax percentage 7 — yields totals 300 / 50 / 30, subtotal 380,
tax 26.6 and total 406.6. -/
theorem buildQuotationResponse_example :
    (buildQuotationResponse exampleQuotation [exampleJob1, exampleJob2]
      [exampleCost1, exampleCost2]).Summary =
      { TotalLaborCost := 300, TotalMaterialCost := 50, TotalGeneralCost := 30
        SubTotal := 380, Tax := 266/10, Total := 4066/10 } := by
  norm_num [buildQuotationResponse, totalLaborCostOf, totalMaterialCostOf,
    totalGeneralCostOf, taxPercentageOf, roundFloat, mathRound, exampleJob1, exampleJob2,
    exampleCost1, exampleCost2, exampleQuotation, QuotationSummary.mk.injEq]

/-- C10: the output job list has exactly one row per input job in input
order, the cost list is exactly the present-cost rows in input order, both
lists are present (non-nil) even when empty, and an absent valid-until
date maps to the zero time value. -/
theorem buildQuotationResponse_lists (quotation : Quotation) (jobs : List QuotationJob)
    (costs : List QuotationGeneralCost) :
    (∃ rows, (buildQuotationResponse quotation jobs costs).Jobs = some rows ∧
      List.Forall₂ (fun (row : QuotationJobDetail) (job : QuotationJob) =>
        row = jobDetailOf job) rows jobs) ∧
    (buildQuotationResponse quotation jobs costs).Costs
      = some ((costs.filter (fun cost => cost.EstimatedCost.Valid)).map
          (fun cost => { TypeName := cost.TypeName,
                         EstimatedCost := cost.EstimatedCost.Float64 })) ∧
    (jobs = [] → (buildQuotationResponse quotation jobs costs).Jobs = some []) ∧
    ((∀ cost ∈ costs, cost.EstimatedCost.Valid = false) →
      (buildQuotationResponse quotation jobs costs).Costs = some []) ∧
    (quotation.ValidDate.Valid = false →
      (buildQuotationResponse quotation jobs costs).ValidDate = 0) := by
  refine ⟨⟨jobs.map jobDetailOf, rfl, forall2_map jobDetailOf _ jobs (fun _ => rfl)⟩,
    rfl, ?_, ?_, ?_⟩
  · rintro rfl; rfl
  · intro h
    have hfil : costs.filter (fun cost => cost.EstimatedCost.Valid) = [] := by
      simp only [List.filter_eq_nil_iff]
      intro cost hc
      simp [h cost hc]
    show some (costDetailsOf costs) = some []
    rw [costDetailsOf, hfil]
    rfl
  · intro h
    show getValidTime quotation.ValidDate = 0
    rw [getValidTime, h]
    rfl

/-- C10 witness: with no jobs and only an unpriced cost, the output lists
are present and empty, and the absent valid date maps to zero. -/
theorem buildQuotationResponse_lists_witness :
    (buildQuotationResponse exampleQuotation [] [exampleCost2]).Jobs = some [] ∧
    (buildQuotationResponse exampleQuotation [] [exampleCost2]).Costs = some [] ∧
    (buildQuotationResponse exampleQuotation [] [exampleCost2]).ValidDate = 0 := by
  obtain ⟨-, -, hJ, hC, hV⟩ := buildQuotationResponse_lists exampleQuotation [] [exampleCost2]
  exact ⟨hJ rfl, hC (by decide), hV rfl⟩

/-! ### Claims about the orchestrator -/

/-- The fetch-and-build tail never changes the repository state. -/
theorem getJobsCostsAndBuild_state (q : Quotation) (s : RepoState) (calls : List RepoCall) :
    (getJobsCostsAndBuild q s calls).2.1 = s := by
  unfold getJobsCostsAndBuild
  rcases hjb : s.jobs with e | jobs
  · rfl
  · rcases hcs : s.costs with e | costs <;> rfl

/-- The fetch-and-build tail only appends job/cost fetches to the trace. -/
theorem getJobsCostsAndBuild_calls (q : Quotation) (s : RepoState) (calls : List RepoCall) :
    ∃ tail, (getJobsCostsAndBuild q s calls).2.2 = calls ++ tail ∧
      RepoCall.create ∉ tail := by
  unfold getJobsCostsAndBuild
  rcases hjb : s.jobs with e | jobs
  · exact ⟨[.getQuotationJobs], rfl, by decide⟩
  · rcases hcs : s.costs with e | costs
    · exact ⟨[.getQuotationJobs, .getQuotationGeneralCosts], rfl, by decide⟩
    · exact ⟨[.getQuotationJobs, .getQuotationGeneralCosts], rfl, by decide⟩

/-- C5: when the BOQ status check succeeds with anything other than
`"approved"`, `CreateOrGetQuotation` fails with the precondition error,
leaves the repository untouched, and makes no call beyond the status
check — in particular neither the quotation lookup nor the create path. -/
theorem CreateOrGetQuotation_boq_gate (s : RepoState) (status : String)
    (hs : s.boqStatus = .ok status) (hne : status ≠ "approved") :
    CreateOrGetQuotation s =
      (.error (.msg "BOQ must be approved before creating quotation"), s,
        [.checkBOQStatus]) := by
  unfold CreateOrGetQuotation
  rw [hs]
  simp [hne]

/-- Repository state with an unapproved BOQ. -/
def repoBoqDraft : RepoState :=
  { boqStatus := .ok "draft", existing := .ok none, createResult := .ok exampleQuotation
    jobs := .ok [exampleJob1], costs := .ok [exampleCost1], validateResult := .ok ()
    approveResult := .ok (), quotationStatus := .ok "draft", exportData := .ok ⟨"bundle"⟩ }

/-- C5 witness: concrete run against a repository whose BOQ is in draft. -/
theorem CreateOrGetQuotation_boq_gate_witness :
    CreateOrGetQuotation repoBoqDraft =
      (.error (.msg "BOQ must be approved before creating quotation"), repoBoqDraft,
        [.checkBOQStatus]) :=
  CreateOrGetQuotation_boq_gate repoBoqDraft "draft" rfl (by decide)

/-- C6: `CreateOrGetQuotation` calls the repository's `Create` exactly
when the quotation lookup would return no existing quotation (nil with no
error); and when no quotation exists and creation succeeds, two sequential
invocations make at most one `Create` call in total — the second finds the
created quotation and never calls `Create`. -/
theorem CreateOrGetQuotation_create_idempotent (s : RepoState) (q : Quotation) :
    (RepoCall.create ∈ (CreateOrGetQuotation s).2.2 ↔
      s.boqStatus = .ok "approved" ∧ s.existing = .ok none) ∧
    (s.existing = .ok none → s.createResult = .ok q →
      ((CreateOrGetQuotation s).2.2
          ++ (CreateOrGetQuotation (CreateOrGetQuotation s).2.1).2.2).count .create ≤ 1 ∧
        RepoCall.create ∉ (CreateOrGetQuotation (CreateOrGetQuotation s).2.1).2.2) := by
  obtain ⟨boq, ex, cr, jb, cs, va, ap, qs, ed⟩ := s
  rcases boq with e | st
  · constructor
    · simp [CreateOrGetQuotation]
    · intro h1 h2
      constructor
      · simp [CreateOrGetQuotation]
      · simp [CreateOrGetQuotation]
  · by_cases hst : st = "approved"
    · subst hst
      rcases ex with e | qopt
      · constructor
        · simp [CreateOrGetQuotation]
        · intro h1
          exact absurd h1 (by simp)
      · rcases qopt with _ | q0
        · rcases cr with e | q1
          · constructor
            · simp [CreateOrGetQuotation]
            · intro h1 h2
              exact absurd h2 (by simp)
          · constructor
            · rcases jb with e | jobs
              · simp [CreateOrGetQuotation, getJobsCostsAndBuild, afterCreate]
              · rcases cs with e | costs <;>
                  simp [CreateOrGetQuotation, getJobsCostsAndBuild, afterCreate]
            · intro h1 h2
              rcases jb with e | jobs
              · constructor <;>
                  simp [CreateOrGetQuotation, getJobsCostsAndBuild, afterCreate,
                    List.count_append, List.count_cons]
              · rcases cs with e | costs <;> constructor <;>
                  simp [CreateOrGetQuotation, getJobsCostsAndBuild, afterCreate,
                    List.count_append, List.count_cons]
        · constructor
          · rcases jb with e | jobs
            · simp [CreateOrGetQuotation, getJobsCostsAndBuild]
            · rcases cs with e | costs <;>
                simp [CreateOrGetQuotation, getJobsCostsAndBuild]
          · intro h1
            exact absurd h1 (by simp)
    · constructor
      · simp [CreateOrGetQuotation, hst]
      · intro h1 h2
        constructor
        · simp [CreateOrGetQuotation, hst]
        · simp [CreateOrGetQuotation, hst]

/-- Repository state for a project with an approved BOQ and no quotation
yet. -/
def repoNoQuotation : RepoState :=
  { boqStatus := .ok "approved", existing := .ok none, createResult := .ok exampleQuotation
    jobs := .ok [exampleJob1], costs := .ok [exampleCost1], validateResult := .ok ()
    approveResult := .ok (), quotationStatus := .ok "draft", exportData := .ok ⟨"bundle"⟩ }

/-- C6 witness: a concrete double invocation starting with no quotation
makes exactly one `Create` call and none on the second run. -/
theorem CreateOrGetQuotation_create_idempotent_witness :
    ((CreateOrGetQuotation repoNoQuotation).2.2
        ++ (CreateOrGetQuotation (CreateOrGetQuotation repoNoQuotation).2.1).2.2).count
        .create ≤ 1 ∧
      RepoCall.create ∉ (CreateOrGetQuotation (CreateOrGetQuotation repoNoQuotation).2.1).2.2 :=
  (CreateOrGetQuotation_create_idempotent repoNoQuotation exampleQuotation).2 rfl rfl

/-- C7: `ExportQuotation` never changes the repository state; it returns
export data only when the BOQ status check and then the quotation status
check both return `"approved"`; and when the BOQ is approved but the
quotation status is anything else, it fails with the export precondition
error after exactly the two status checks, in that order. -/
theorem ExportQuotation_gates (s : RepoState) :
    (ExportQuotation s).2.1 = s ∧
    (∀ d, (ExportQuotation s).1 = .ok d →
      s.boqStatus = .ok "approved" ∧ s.quotationStatus = .ok "approved" ∧
        s.exportData = .ok d) ∧
    (∀ st, s.boqStatus = .ok "approved" → s.quotationStatus = .ok st →
      st ≠ "approved" →
      ExportQuotation s =
        (.error (.msg "only approved quotations can be exported"), s,
          [.checkBOQStatus, .getQuotationStatus])) := by
  obtain ⟨boq, ex, cr, jb, cs, va, ap, qs, ed⟩ := s
  rcases boq with e | bst
  · refine ⟨rfl, ?_, ?_⟩
    · intro d hd
      exact absurd hd (by simp [ExportQuotation])
    · intro st hboq
      exact absurd hboq (by simp)
  · by_cases hb : bst = "approved"
    · subst hb
      rcases qs with e | qst
      · refine ⟨?_, ?_, ?_⟩
        · simp [ExportQuotation]
        · intro d hd
          exact absurd hd (by simp [ExportQuotation])
        · intro st hboq hq
          exact absurd hq (by simp)
      · by_cases hq : qst = "approved"
        · subst hq
          rcases ed with e | d0
          · refine ⟨?_, ?_, ?_⟩
            · simp [ExportQuotation]
            · intro d hd
              exact absurd hd (by simp [ExportQuotation])
            · intro st hboq hqs hne
              injection hqs with h
              exact absurd h.symm hne
          · refine ⟨?_, ?_, ?_⟩
            · simp [ExportQuotation]
            · intro d hd
              simp [ExportQuotation] at hd
              subst hd
              exact ⟨rfl, rfl, rfl⟩
            · intro st hboq hqs hne
              injection hqs with h
              exact absurd h.symm hne
        · refine ⟨?_, ?_, ?_⟩
          · simp [ExportQuotation, hq]
          · intro d hd
            exact absurd hd (by simp [ExportQuotation, hq])
          · intro st hboq hqs hne
            injection hqs with h
            subst h
            simp [ExportQuotation, hq]
    · refine ⟨?_, ?_, ?_⟩
      · simp [ExportQuotation, hb]
      · intro d hd
        exact absurd hd (by simp [ExportQuotation, hb])
      · intro st hboq
        exact absurd (by injection hboq) hb

/-- Repository state with an approved BOQ but a still-draft quotation. -/
def repoQuotationDraft : RepoState :=
  { boqStatus := .ok "approved", existing := .ok (some exampleQuotation)
    createResult := .ok exampleQuotation, jobs := .ok [exampleJob1]
    costs := .ok [exampleCost1], validateResult := .ok (), approveResult := .ok ()
    quotationStatus := .ok "draft", exportData := .ok ⟨"bundle"⟩ }

/-- C7 witness: a concrete export attempt with the BOQ approved but the
quotation still in draft fails after the two status checks and leaves the
state unchanged. -/
theorem ExportQuotation_gates_witness :
    ExportQuotation repoQuotationDraft =
      (.error (.msg "only approved quotations can be exported"), repoQuotationDraft,
        [.checkBOQStatus, .getQuotationStatus]) :=
  (ExportQuotation_gates repoQuotationDraft).2.2 "draft" rfl rfl (by decide)

/-- C8: a `ValidateApproval` failure is propagated verbatim with no
approval write and no state change; an approval-write failure is likewise
propagated with the state unchanged; once the approval write succeeds the
persisted state is the approved one whatever happens next, the operation
returns unit on full success — validation, write and all three re-fetches
succeeding with the quotation found, its re-aggregated response discarded
— a failing post-approval fetch is reported wrapped with context but does
not roll the approval back, and a nil-with-no-error post-approval lookup
crashes on the nil dereference instead of returning. -/
theorem ApproveQuotation_spec (s : RepoState) (e : Err) :
    (s.validateResult = .error e →
      ApproveQuotation s = (.err e, s, [.validateApproval])) ∧
    (s.validateResult = .ok () → s.approveResult = .error e →
      ApproveQuotation s = (.err e, s, [.validateApproval, .approveQuotation])) ∧
    (s.validateResult = .ok () → s.approveResult = .ok () →
      ((ApproveQuotation s).2.1 = afterApprove s ∧
        (ApproveQuotation s).2.1.quotationStatus = .ok "approved") ∧
      (∀ q jobsList costsList, s.existing = .ok (some q) → s.jobs = .ok jobsList →
        s.costs = .ok costsList → (ApproveQuotation s).1 = .ok) ∧
      (∀ jobsList costsList, s.existing = .ok none → s.jobs = .ok jobsList →
        s.costs = .ok costsList → (ApproveQuotation s).1 = .nilDeref) ∧
      (s.existing = .error e →
        (ApproveQuotation s).1 = .err (.wrap "failed to get updated quotation" e))) := by
  obtain ⟨boq, ex, cr, jb, cs, va, ap, qs, ed⟩ := s
  refine ⟨?_, ?_, ?_⟩
  · intro h
    subst h
    simp [ApproveQuotation]
  · intro h1 h2
    subst h1
    subst h2
    simp [ApproveQuotation]
  · intro h1 h2
    subst h1
    subst h2
    refine ⟨?_, ?_, ?_, ?_⟩
    · rcases ex with e' | qopt
      · constructor <;> simp [ApproveQuotation, afterApprove]
      · rcases qopt with _ | q0 <;> rcases jb with e' | jobsList <;>
          rcases cs with e' | costsList <;>
          constructor <;> simp [ApproveQuotation, afterApprove]
    · intro q jobsList costsList hex hjb hcs
      subst hex
      subst hjb
      subst hcs
      simp [ApproveQuotation, afterApprove]
    · intro jobsList costsList hex hjb hcs
      subst hex
      subst hjb
      subst hcs
      simp [ApproveQuotation, afterApprove]
    · intro hex
      subst hex
      simp [ApproveQuotation, afterApprove]

/-- Repository state whose `ValidateApproval` rejects the request. -/
def repoRejectsApproval : RepoState :=
  { boqStatus := .ok "approved", existing := .ok (some exampleQuotation)
    createResult := .ok exampleQuotation, jobs := .ok [exampleJob1]
    costs := .ok [exampleCost1], validateResult := .error (.msg "quotation has no jobs")
    approveResult := .ok (), quotationStatus := .ok "draft", exportData := .ok ⟨"bundle"⟩ }

/-- C8 witness: against a rejecting repository the validation error comes
back verbatim with nothing written, and against an accepting one the
operation returns unit with the approved status persisted. -/
theorem ApproveQuotation_spec_witness :
    ApproveQuotation repoRejectsApproval =
      (.err (.msg "quotation has no jobs"), repoRejectsApproval, [.validateApproval]) ∧
    (ApproveQuotation repoQuotationDraft).1 = .ok ∧
    (ApproveQuotation repoQuotationDraft).2.1.quotationStatus = .ok "approved" := by
  refine ⟨(ApproveQuotation_spec repoRejectsApproval (.msg "quotation has no jobs")).1 rfl,
    ?_, ?_⟩
  · exact ((ApproveQuotation_spec repoQuotationDraft (.msg "unused")).2.2 rfl rfl).2.1
      exampleQuotation [exampleJob1] [exampleCost1] rfl rfl rfl
  · exact (((ApproveQuotation_spec repoQuotationDraft (.msg "unused")).2.2 rfl rfl).1).2

end Boonkosang
